import Mathlib

/-!
Shallow embedding of `src/labs/Laboratorio_6/Streamlit/app.py`, a single-page
Streamlit demo that classifies an image as cat vs dog with a pretrained model.

The embedding follows the source line by line.  Third-party library behaviour
(PIL image conversion/resizing, `requests.get`, `tf.keras.models.load_model`,
Streamlit session state and `st.cache_resource`) is modelled explicitly:
8-bit pixels are `Fin 256` triples, the filesystem is the optional content of
`my_cat_dog_model.keras`, the network is the response `requests.get` would
return, and the TensorFlow loader is a parameter that either returns a model
object or raises (`Except`).
-/

namespace CatDogApp

/-- An 8-bit RGB pixel, as stored by PIL for mode "RGB" images. -/
structure Pixel where
  r : Fin 256
  g : Fin 256
  b : Fin 256

/-- Model of a PIL image: a color mode string, dimensions, and a pixel grid.
Non-RGB modes (for example "L", "RGBA", "P") carry their decoded per-pixel
color as an RGB triple as well, which is what `convert("RGB")` exposes. -/
structure PILImage where
  mode : String
  width : Nat
  height : Nat
  px : Nat → Nat → Pixel

/-- Model of PIL `Image.convert("RGB")`: the result has mode "RGB", the same
dimensions, and 8-bit pixel data derived from the original image. -/
def PILImage.convertRGB (img : PILImage) : PILImage :=
  { img with mode := "RGB" }

/-- Model of PIL `Image.resize(size)`: an image of the requested size whose
8-bit pixels are sampled from the original grid (nearest-neighbour sampling;
any PIL resampling filter likewise yields 8-bit pixels of the same mode). -/
def PILImage.resize (img : PILImage) (size : Nat × Nat) : PILImage :=
  { mode := img.mode
    width := size.1
    height := size.2
    px := fun x y => img.px (x * img.width / size.1) (y * img.height / size.2) }

/-- Model of a numpy float array of rank 4: its shape, its dtype tag, and the
entry at each index (entries are exact rationals in this embedding). -/
structure Tensor4 where
  shape : Nat × Nat × Nat × Nat
  dtype : String
  val : Nat → Nat → Nat → Nat → ℚ

/-- `preprocess_image` (app.py lines 43-63): convert to RGB if needed, resize
to `target_size`, convert to a numpy array, cast to float32 and divide by
255.0, and add a batch dimension.  The resulting array has shape
(1, height, width, 3) with channel order r, g, b. -/
def preprocess_image (_image : PILImage)
    (target_size : Nat × Nat := (128, 128)) : Tensor4 :=
  let image := if _image.mode ≠ "RGB" then _image.convertRGB else _image
  let image := image.resize target_size
  { shape := (1, target_size.2, target_size.1, 3)
    dtype := "float32"
    val := fun _n y x c =>
      let p := image.px x y
      ((if c = 0 then p.r.val else if c = 1 then p.g.val else p.b.val : Nat) : ℚ)
        / 255 }

/-- The model's output for one input: a pair of probabilities `[cat, dog]`
(`prediction[0]` in the source). -/
structure Prediction where
  p0 : ℚ
  p1 : ℚ

/-- Entry of the prediction pair at an index, as `prediction[0][i]`. -/
def Prediction.get (p : Prediction) : Nat → ℚ
  | 0 => p.p0
  | _ => p.p1

/-- Model of `np.argmax` on the two-element array `[p0, p1]`: the first index
attaining the maximum, so 0 when `p0 ≥ p1` and 1 otherwise. -/
def argmax2 (p : Prediction) : Nat :=
  if p.p0 ≥ p.p1 then 0 else 1

/-- `class_names = ['Gato 🐱', 'Perro 🐶']` (app.py line 71). -/
def class_names : List String := ["Gato 🐱", "Perro 🐶"]

/-- `predict_image` (app.py lines 65-75): preprocess the image, run
`model.predict` on the preprocessed tensor, take the argmax of the output
pair, and return the class name at that index, the probability at that index,
and the whole pair.  The model is the function computed by `model.predict`
restricted to one input (it returns `prediction` with `prediction[0]` the
pair). -/
def predict_image (model : Tensor4 → Prediction) (image : PILImage) :
    String × ℚ × Prediction :=
  let processed_image := preprocess_image image
  let prediction := model processed_image
  let predicted_class := argmax2 prediction
  let confidence := prediction.get predicted_class
  (class_names.getD predicted_class "", confidence, prediction)

/-- A loaded Keras model object (`tf.keras.models.load_model` returns a model
object; its behaviour is irrelevant to the claims, so it is identified by a
tag here). -/
structure Model where
  tag : Nat
  deriving DecidableEq

/-- The response `requests.get(model_url)` yields: a status code and a body.
`load_model` in the source never inspects the status code. -/
structure HTTPResponse where
  status : Nat
  content : List Nat

/-- The local filesystem as far as the program touches it: the content of the
file at `model_path` (`my_cat_dog_model.keras`), or `none` when the file does
not exist (`os.path.exists`). -/
structure FS where
  modelFile : Option (List Nat)
  deriving DecidableEq

/-- A network request made by the program. -/
inductive NetEvent
  | get (url : String)
  deriving DecidableEq

/-- The environment `load_model` runs against: what the network returns and
what `tf.keras.models.load_model` does on a given file content (returns a
model object, or raises, modelled as `Except`; the TensorFlow loader never
returns the Python value `None`). -/
structure Env where
  net : HTTPResponse
  tfLoad : List Nat → Except String Model

/-- `model_url` (app.py line 20). -/
def model_url : String :=
  "https://huggingface.co/nicolastibata/my_cat_dog_model/resolve/main/my_cat_dog_model.keras"

/-- `load_model` (app.py lines 17-30): if the file at `model_path` does not
exist, issue `requests.get(model_url)` and write `response.content` to the
file; then return `tf.keras.models.load_model(model_path)`.  The result is
the returned Python value (`some` model on success, and a raised exception is
an `Except.error`; there is no try/except in this function), together with the
filesystem afterwards and the list of network requests made. -/
def load_model (env : Env) (fs : FS) :
    Except String (Option Model) × FS × List NetEvent :=
  let (fs1, events) :=
    match fs.modelFile with
    | some _ => (fs, ([] : List NetEvent))
    | none => (⟨some env.net.content⟩, [NetEvent.get model_url])
  match fs1.modelFile with
  | some content =>
    match env.tfLoad content with
    | Except.ok m => (Except.ok (some m), fs1, events)
    | Except.error e => (Except.error e, fs1, events)
  | none => (Except.error "no such file", fs1, events)

/-- The file content `tf.keras.models.load_model` is applied to inside
`load_model`: the cached file when it exists, and the freshly written
`response.content` otherwise. -/
def effective_model_file (env : Env) (fs : FS) : List Nat :=
  fs.modelFile.getD env.net.content

/-- Whether `main`'s `if model is None:` error branch (app.py lines 85-87)
fires, as a function of the value `load_model` produced. -/
def model_is_none_branch (r : Except String (Option Model)) : Bool :=
  match r with
  | Except.ok none => true
  | _ => false

/-- A file handed over by `st.file_uploader`, identified by its `file_id`. -/
structure UploadedFile where
  file_id : String
  deriving DecidableEq

/-- The image held in `st.session_state.image_to_predict`, identified by where
`Image.open` got it from. -/
inductive ImgSrc
  | uploaded (f : UploadedFile)
  | sample (path : String)
  deriving DecidableEq

/-- The persistent process-wide state of the running app: the two Streamlit
session flags (`image_to_predict`, `last_uploaded_file_id`), the local
filesystem, and the `st.cache_resource` store holding the loaded model. -/
structure ProcState where
  session_image : Option ImgSrc
  session_last_id : Option String
  fs : FS
  modelCache : Option Model
  deriving DecidableEq

/-- The upload handler (app.py lines 126-129): if a file was uploaded and its
`file_id` differs from `st.session_state.get("last_uploaded_file_id")`, open
it into `image_to_predict` and record its id; otherwise touch nothing. -/
def upload_handler (uploaded_file : Option UploadedFile) (s : ProcState) :
    ProcState :=
  match uploaded_file with
  | some f =>
    if some f.file_id ≠ s.session_last_id then
      { s with session_image := some (ImgSrc.uploaded f)
               session_last_id := some f.file_id }
    else s
  | none => s

/-- `set_sample_image` (app.py lines 142-149): set `image_to_predict` to the
sample image and set `last_uploaded_file_id` to the current upload's id (or
`None` when nothing is uploaded). -/
def set_sample_image (path : String) (uploaded_file : Option UploadedFile)
    (s : ProcState) : ProcState :=
  { s with session_image := some (ImgSrc.sample path)
           session_last_id := uploaded_file.map (fun f => f.file_id) }

/-- The user interactions one re-run of `main` observes: the widget value of
`st.file_uploader` and which of the buttons were pressed on this run. -/
structure MainInput where
  uploaded : Option UploadedFile
  useGato : Bool
  usePerro : Bool
  useOtroPerro : Bool

/-- The interaction part of one re-run of `main` (app.py lines 111-229):
initialise missing session keys to `None` (the `none` of `Option`, so an
identity here), run the upload handler, then the three sample-image buttons;
image display and classification (lines 167-229) read state but never write
it. -/
def interaction_phase (inp : MainInput) (s : ProcState) : ProcState :=
  let s := upload_handler inp.uploaded s
  let s := if inp.useGato then set_sample_image "cat.jpg" inp.uploaded s else s
  let s := if inp.usePerro then set_sample_image "dog1.png" inp.uploaded s else s
  if inp.useOtroPerro then set_sample_image "dog2.png" inp.uploaded s else s

/-- One re-run of `main` (app.py lines 78-229), restricted to its effect on
persistent process-wide state.  `model = load_model()` goes through
`st.cache_resource`: a cached model is reused without running the body, and a
successful result is stored in the cache.  On a raised exception the run
aborts (second component `some e`) with any filesystem write kept.  The
`model is None` guard returns early; otherwise the interaction phase runs. -/
def main (env : Env) (inp : MainInput) (s : ProcState) :
    ProcState × Option String :=
  let (res, fs1, _events) :=
    match s.modelCache with
    | some m => (Except.ok (some m), s.fs, ([] : List NetEvent))
    | none => load_model env s.fs
  match res with
  | Except.error e => ({ s with fs := fs1 }, some e)
  | Except.ok mOpt =>
    let s := { s with fs := fs1, modelCache := mOpt }
    match mOpt with
    | none => (s, none)
    | some _model => (interaction_phase inp s, none)

/-- A primitive call recorded while running `predict_image`. -/
inductive PredEvent
  | preprocessCall (img : PILImage)
  | predictCall (t : Tensor4)

/-- Is the event a call to `preprocess_image`? -/
def PredEvent.isPreprocess : PredEvent → Bool
  | PredEvent.preprocessCall _ => true
  | _ => false

/-- Is the event a call to `model.predict`? -/
def PredEvent.isPredict : PredEvent → Bool
  | PredEvent.predictCall _ => true
  | _ => false

/-- `preprocess_image`, instrumented to record its call. -/
def traced_preprocess (img : PILImage) : Tensor4 × List PredEvent :=
  (preprocess_image img, [PredEvent.preprocessCall img])

/-- `model.predict`, instrumented to record its call and argument. -/
def traced_predict (model : Tensor4 → Prediction) (t : Tensor4) :
    Prediction × List PredEvent :=
  (model t, [PredEvent.predictCall t])

/-- `predict_image` (app.py lines 65-75) with each primitive call routed
through its instrumented version and the logs concatenated in program
order. -/
def predict_image_traced (model : Tensor4 → Prediction) (image : PILImage) :
    (String × ℚ × Prediction) × List PredEvent :=
  let (processed_image, l1) := traced_preprocess image
  let (prediction, l2) := traced_predict model processed_image
  let predicted_class := argmax2 prediction
  let confidence := prediction.get predicted_class
  ((class_names.getD predicted_class "", confidence, prediction), l1 ++ l2)

/-- The confidence interpretation rendered after a classification
(app.py lines 224-229). -/
inductive Interp
  | alta
  | media
  | baja
  deriving DecidableEq

/-- The `if confidence > 0.8 / elif confidence > 0.6 / else` cascade choosing
which interpretation message is shown (app.py lines 224-229). -/
def interpretation (confidence : ℚ) : Interp :=
  if confidence > 4/5 then Interp.alta
  else if confidence > 3/5 then Interp.media
  else Interp.baja

/-! Concrete instances used by witnesses and counterexamples. -/

/-- An environment whose TensorFlow loader succeeds on any file content. -/
def env_ok : Env :=
  { net := { status := 200, content := [1, 2, 3] }
    tfLoad := fun _ => Except.ok { tag := 7 } }

/-- An environment whose TensorFlow loader raises on any file content. -/
def env_loadfail : Env :=
  { net := { status := 200, content := [1, 2, 3] }
    tfLoad := fun _ => Except.error "bad model file" }

/-- A filesystem on which `my_cat_dog_model.keras` already exists. -/
def fs_cached : FS := ⟨some [9, 9]⟩

/-- A filesystem on which `my_cat_dog_model.keras` does not exist. -/
def fs_empty : FS := ⟨none⟩

/-- The process state of a fresh run: no session flags, no file, cold cache. -/
def proc_fresh : ProcState :=
  { session_image := none
    session_last_id := none
    fs := fs_empty
    modelCache := none }

/-- A warmed-up process state: the model is cached and the file is on disk. -/
def proc_warm : ProcState :=
  { session_image := none
    session_last_id := none
    fs := fs_cached
    modelCache := some { tag := 7 } }

/-- An uploaded file with id "a". -/
def file_a : UploadedFile := { file_id := "a" }

/-- A process state that has already seen the upload with id "a". -/
def proc_seen_a : ProcState :=
  { session_image := some (ImgSrc.uploaded file_a)
    session_last_id := some "a"
    fs := fs_cached
    modelCache := some { tag := 7 } }

/-- A re-run with no upload and no button pressed. -/
def inp_idle : MainInput :=
  { uploaded := none, useGato := false, usePerro := false, useOtroPerro := false }

/-! Helper lemmas. -/

/-- A byte value divided by 255 lies in the unit interval. -/
theorem div255_mem_unit (k : Nat) (hk : k ≤ 255) :
    0 ≤ (k : ℚ) / 255 ∧ (k : ℚ) / 255 ≤ 1 := by
  constructor
  · positivity
  · rw [div_le_one (by norm_num : (0 : ℚ) < 255)]
    exact_mod_cast hk

/-- `upload_handler` only touches the two session flags. -/
theorem upload_handler_frame (u : Option UploadedFile) (s : ProcState) :
    (upload_handler u s).fs = s.fs ∧ (upload_handler u s).modelCache = s.modelCache := by
  cases u with
  | none => exact ⟨rfl, rfl⟩
  | some f =>
    by_cases hf : some f.file_id ≠ s.session_last_id
    · simp [upload_handler, hf]
    · simp [upload_handler, hf]

/-- `set_sample_image` only touches the two session flags. -/
theorem set_sample_image_frame (p : String) (u : Option UploadedFile)
    (s : ProcState) :
    (set_sample_image p u s).fs = s.fs ∧
    (set_sample_image p u s).modelCache = s.modelCache :=
  ⟨rfl, rfl⟩

/-- The whole interaction phase only touches the two session flags. -/
theorem interaction_phase_frame (inp : MainInput) (s : ProcState) :
    (interaction_phase inp s).fs = s.fs ∧
    (interaction_phase inp s).modelCache = s.modelCache := by
  unfold interaction_phase
  have h1 := upload_handler_frame inp.uploaded s
  set s1 := upload_handler inp.uploaded s
  have h2 : ((if inp.useGato then set_sample_image "cat.jpg" inp.uploaded s1
      else s1).fs = s1.fs) ∧
      ((if inp.useGato then set_sample_image "cat.jpg" inp.uploaded s1
      else s1).modelCache = s1.modelCache) := by
    split
    · exact set_sample_image_frame _ _ _
    · exact ⟨rfl, rfl⟩
  set s2 := if inp.useGato then set_sample_image "cat.jpg" inp.uploaded s1 else s1
  have h3 : ((if inp.usePerro then set_sample_image "dog1.png" inp.uploaded s2
      else s2).fs = s2.fs) ∧
      ((if inp.usePerro then set_sample_image "dog1.png" inp.uploaded s2
      else s2).modelCache = s2.modelCache) := by
    split
    · exact set_sample_image_frame _ _ _
    · exact ⟨rfl, rfl⟩
  set s3 := if inp.usePerro then set_sample_image "dog1.png" inp.uploaded s2 else s2
  have h4 : ((if inp.useOtroPerro then set_sample_image "dog2.png" inp.uploaded s3
      else s3).fs = s3.fs) ∧
      ((if inp.useOtroPerro then set_sample_image "dog2.png" inp.uploaded s3
      else s3).modelCache = s3.modelCache) := by
    split
    · exact set_sample_image_frame _ _ _
    · exact ⟨rfl, rfl⟩
  exact ⟨by rw [h4.1, h3.1, h2.1, h1.1], by rw [h4.2, h3.2, h2.2, h1.2]⟩

/-! Claim theorems. -/

/-- C1: for every model output pair over (cat, dog), `predict_image` returns
the distribution itself, the class name at the argmax index of that pair, and
a confidence equal both to the value at the argmax index of the returned
distribution and to the maximum of the two probabilities. -/
theorem predict_image_argmax_confidence (model : Tensor4 → Prediction)
    (image : PILImage) :
    (predict_image model image).2.2 = model (preprocess_image image) ∧
    (predict_image model image).1 =
      class_names.getD (argmax2 ((predict_image model image).2.2)) "" ∧
    (predict_image model image).2.1 =
      ((predict_image model image).2.2).get
        (argmax2 ((predict_image model image).2.2)) ∧
    (predict_image model image).2.1 =
      max ((predict_image model image).2.2).p0
        ((predict_image model image).2.2).p1 := by
  refine ⟨rfl, rfl, rfl, ?_⟩
  show (model (preprocess_image image)).get (argmax2 (model (preprocess_image image)))
    = max (model (preprocess_image image)).p0 (model (preprocess_image image)).p1
  set p := model (preprocess_image image)
  by_cases h : p.p0 ≥ p.p1
  · simp [argmax2, h, Prediction.get, max_eq_left h]
  · simp [argmax2, h, Prediction.get, max_eq_right (le_of_lt (not_le.mp h))]

/-- C2: for every input image, of arbitrary size and color mode,
`preprocess_image` with the default target size returns a float32 tensor of
shape (1, 128, 128, 3) all of whose entries lie in [0, 1]. -/
theorem preprocess_image_shape_dtype_range (img : PILImage) :
    (preprocess_image img).shape = (1, 128, 128, 3) ∧
    (preprocess_image img).dtype = "float32" ∧
    ∀ n y x c, 0 ≤ (preprocess_image img).val n y x c ∧
      (preprocess_image img).val n y x c ≤ 1 := by
  refine ⟨rfl, rfl, fun n y x c => ?_⟩
  have h : ∀ p : Pixel,
      (if c = 0 then p.r.val else if c = 1 then p.g.val else p.b.val) ≤ 255 := by
    intro p
    split
    · exact Fin.is_le _
    · split
      · exact Fin.is_le _
      · exact Fin.is_le _
  exact div255_mem_unit _ (h _)

/-- C6: each call to `predict_image` runs `preprocess_image` exactly once, on
its input image, and `model.predict` exactly once, on the freshly computed
tensor `preprocess_image image`, and returns the same value as the
uninstrumented function. -/
theorem predict_image_traced_single_calls (model : Tensor4 → Prediction)
    (image : PILImage) :
    (predict_image_traced model image).2 =
      [PredEvent.preprocessCall image,
       PredEvent.predictCall (preprocess_image image)] ∧
    ((predict_image_traced model image).2.filter PredEvent.isPreprocess).length
      = 1 ∧
    ((predict_image_traced model image).2.filter PredEvent.isPredict).length
      = 1 ∧
    (predict_image_traced model image).1 = predict_image model image :=
  ⟨rfl, rfl, rfl, rfl⟩

/-- C7: when the uploaded file's id equals the stored
`last_uploaded_file_id`, the upload handler leaves the whole state — in
particular both session flags — unchanged; when it differs, the handler sets
`image_to_predict` to the opened upload and records its id. -/
theorem upload_handler_no_redundant_update (f : UploadedFile) (s : ProcState) :
    (some f.file_id = s.session_last_id → upload_handler (some f) s = s) ∧
    (some f.file_id ≠ s.session_last_id →
      (upload_handler (some f) s).session_image = some (ImgSrc.uploaded f) ∧
      (upload_handler (some f) s).session_last_id = some f.file_id) := by
  constructor
  · intro h
    simp [upload_handler, h]
  · intro h
    simp [upload_handler, h]

/-- C8: the interpretation shown after a classification is total and mutually
exclusive: it is Alta confianza exactly when confidence > 0.8, Confianza
media exactly when 0.6 < confidence ≤ 0.8, and Baja confianza exactly when
confidence ≤ 0.6, and always one of the three. -/
theorem interpretation_total_exclusive (c : ℚ) :
    (interpretation c = Interp.alta ↔ 4/5 < c) ∧
    (interpretation c = Interp.media ↔ 3/5 < c ∧ c ≤ 4/5) ∧
    (interpretation c = Interp.baja ↔ c ≤ 3/5) := by
  unfold interpretation
  split_ifs with h1 h2
  · have h35 : ¬ c ≤ 3/5 := not_le.mpr (lt_trans (by norm_num) h1)
    exact ⟨by simp [h1], by simp [not_le.mpr h1], by simp [h35]⟩
  · exact ⟨by simp [h1], by simp [h2, not_lt.mp h1], by simp [not_le.mpr h2]⟩
  · exact ⟨by simp [h1], by simp [h2], by simp [not_lt.mp h2]⟩

/-- C3 counterexample: `load_model` as written has no try/except — with the
model file cached and a TensorFlow loader that raises, the exception
propagates out of `load_model` instead of being caught and turned into a
reported error with result None. -/
theorem load_model_no_try_except_counterexample :
    (load_model env_loadfail fs_cached).1 = Except.error "bad model file" ∧
    (load_model env_loadfail fs_cached).1 ≠ Except.ok none := by
  constructor
  · rfl
  · intro h
    rw [show (load_model env_loadfail fs_cached).1
        = Except.error "bad model file" from rfl] at h
    exact Except.noConfusion h

/-- C3 amended: the program has no failure-recovery try/except around model
loading; whenever the TensorFlow loader raises on the file `load_model` hands
it, the exception propagates out of `load_model`, which in particular never
reports the error and returns None. -/
theorem load_model_exception_propagates (env : Env) (fs : FS) (e : String)
    (h : env.tfLoad (effective_model_file env fs) = Except.error e) :
    (load_model env fs).1 = Except.error e ∧
    (load_model env fs).1 ≠ Except.ok none := by
  unfold load_model
  unfold effective_model_file at h
  cases hfs : fs.modelFile with
  | some c =>
    rw [hfs] at h
    simp only [Option.getD_some] at h
    simp [hfs, h]
  | none =>
    rw [hfs] at h
    simp only [Option.getD_none] at h
    simp [hfs, h]

/-- Witness for C3's amended theorem at a concrete environment. -/
theorem load_model_exception_propagates_witness :
    (env_loadfail.tfLoad (effective_model_file env_loadfail fs_cached)
      = Except.error "bad model file") ∧
    ((load_model env_loadfail fs_cached).1 = Except.error "bad model file" ∧
     (load_model env_loadfail fs_cached).1 ≠ Except.ok none) :=
  ⟨rfl, load_model_exception_propagates env_loadfail fs_cached "bad model file" rfl⟩

/-- C4: whenever the file `my_cat_dog_model.keras` already exists,
`load_model` makes no network request and leaves the filesystem — in
particular the cached file's content — unchanged. -/
theorem load_model_cached_skips_network (env : Env) (fs : FS)
    (h : fs.modelFile.isSome = true) :
    (load_model env fs).2.2 = [] ∧ (load_model env fs).2.1 = fs := by
  obtain ⟨c, hc⟩ := Option.isSome_iff_exists.mp h
  cases htf : env.tfLoad c with
  | ok m => simp [load_model, hc, htf]
  | error e => simp [load_model, hc, htf]

/-- Witness for C4 at a concrete cached filesystem. -/
theorem load_model_cached_skips_network_witness :
    (fs_cached.modelFile.isSome = true) ∧
    ((load_model env_ok fs_cached).2.2 = [] ∧
     (load_model env_ok fs_cached).2.1 = fs_cached) :=
  ⟨rfl, load_model_cached_skips_network env_ok fs_cached rfl⟩

/-- C9: when no cached file exists, `load_model` writes the HTTP response
body to the file unconditionally — for every environment, hence for every
status code and content — after issuing exactly the one request; and the mere
existence of a file suppresses the download entirely. -/
theorem load_model_unconditional_write (env : Env) (fs : FS) :
    (fs.modelFile = none →
      (load_model env fs).2.1.modelFile = some env.net.content ∧
      (load_model env fs).2.2 = [NetEvent.get model_url]) ∧
    (fs.modelFile.isSome = true → (load_model env fs).2.2 = []) := by
  constructor
  · intro h
    cases htf : env.tfLoad env.net.content with
    | ok m => simp [load_model, h, htf]
    | error e => simp [load_model, h, htf]
  · intro h
    obtain ⟨c, hc⟩ := Option.isSome_iff_exists.mp h
    cases htf : env.tfLoad c with
    | ok m => simp [load_model, hc, htf]
    | error e => simp [load_model, hc, htf]

/-- Witness for C9: the body is written even when the loader then raises
(no content check), and an existing file suppresses the request. -/
theorem load_model_unconditional_write_witness :
    (fs_empty.modelFile = none ∧
      ((load_model env_loadfail fs_empty).2.1.modelFile
          = some env_loadfail.net.content ∧
       (load_model env_loadfail fs_empty).2.2 = [NetEvent.get model_url])) ∧
    (fs_cached.modelFile.isSome = true ∧
      (load_model env_loadfail fs_cached).2.2 = []) :=
  ⟨⟨rfl, (load_model_unconditional_write env_loadfail fs_empty).1 rfl⟩,
   ⟨rfl, (load_model_unconditional_write env_loadfail fs_cached).2 rfl⟩⟩

/-- C10: `load_model` never returns None — on every run it either returns the
TensorFlow loader's model or lets the exception propagate — so the
`if model is None:` error branch in `main` never fires. -/
theorem load_model_never_returns_none (env : Env) (fs : FS) :
    (load_model env fs).1 ≠ Except.ok none ∧
    model_is_none_branch (load_model env fs).1 = false := by
  unfold load_model model_is_none_branch
  cases hfs : fs.modelFile with
  | some c => cases htf : env.tfLoad c <;> simp [hfs, htf]
  | none => cases htf : env.tfLoad env.net.content <;> simp [hfs, htf]

/-- C5 counterexample: a run of `main` from a fresh process changes
persistent process-wide state other than the two session flags — it writes
the model file to disk and fills the `st.cache_resource` store — while both
session flags stay untouched. -/
theorem main_persistent_state_counterexample :
    ((main env_ok inp_idle proc_fresh).1.fs ≠ proc_fresh.fs) ∧
    ((main env_ok inp_idle proc_fresh).1.modelCache ≠ proc_fresh.modelCache) ∧
    ((main env_ok inp_idle proc_fresh).1.session_image
      = proc_fresh.session_image) ∧
    ((main env_ok inp_idle proc_fresh).1.session_last_id
      = proc_fresh.session_last_id) := by
  refine ⟨?_, ?_, rfl, rfl⟩ <;> decide

/-- C5 amended: the persistent process-wide state comprises the two session
flags plus the on-disk model file and the `st.cache_resource` model cache,
and `main` writes the latter two only while loading the model: once the
model cache is filled, a re-run of `main` leaves the filesystem and the cache
unchanged, so only the two session flags can change. -/
theorem main_warm_cache_frame (env : Env) (inp : MainInput) (s : ProcState)
    (h : s.modelCache.isSome = true) :
    (main env inp s).1.fs = s.fs ∧
    (main env inp s).1.modelCache = s.modelCache := by
  obtain ⟨m, hm⟩ := Option.isSome_iff_exists.mp h
  have hip := interaction_phase_frame inp
    { s with fs := s.fs, modelCache := some m }
  simp only [main, hm]
  exact ⟨hip.1, by rw [hip.2]⟩

/-- Witness for C5's amended theorem at a warmed-up process state. -/
theorem main_warm_cache_frame_witness :
    (proc_warm.modelCache.isSome = true) ∧
    ((main env_ok inp_idle proc_warm).1.fs = proc_warm.fs ∧
     (main env_ok inp_idle proc_warm).1.modelCache = proc_warm.modelCache) :=
  ⟨rfl, main_warm_cache_frame env_ok inp_idle proc_warm rfl⟩

/-- Witness for C7 at concrete states: an upload already seen leaves the
state untouched, a new upload updates both flags. -/
theorem upload_handler_no_redundant_update_witness :
    ((some file_a.file_id = proc_seen_a.session_last_id) ∧
      upload_handler (some file_a) proc_seen_a = proc_seen_a) ∧
    ((some file_a.file_id ≠ proc_fresh.session_last_id) ∧
      ((upload_handler (some file_a) proc_fresh).session_image
          = some (ImgSrc.uploaded file_a) ∧
       (upload_handler (some file_a) proc_fresh).session_last_id
          = some file_a.file_id)) :=
  ⟨⟨rfl, (upload_handler_no_redundant_update file_a proc_seen_a).1 rfl⟩,
   ⟨by decide,
    (upload_handler_no_redundant_update file_a proc_fresh).2 (by decide)⟩⟩

end CatDogApp
